import Mathlib

/-!
Verification of the access-control subsystem of the RT-CRM client
(`src/contexts/PermissionsContext.tsx` and the router/guard composition in
the application shell).  The TypeScript/React code is shallowly embedded:

* pure functions (`hasPageAccess`, route normalization, `usePermissions`,
  the guard render functions) become Lean functions;
* the stateful provider is modelled by an explicit store
  (`Store`, mirroring the four `useState` cells) together with an event
  trace semantics: each invocation of `fetchPermissions` (and of the two
  `useEffect` bodies) emits a list of events (`Ev`) — state-setter calls
  and service-call dispatches — which are folded over the store;
* React's render/commit cycle is modelled by `commitPass`: a render
  snapshots the current props and state, hook closures capture those
  snapshot values, and the two effects run in declaration order whenever
  their dependency tuples differ from the previous render's.  Service
  completions are delivered immediately after dispatch (the event-loop
  scheduling in which no other event intervenes between dispatch and
  response), which preserves the orderings and call counts at issue here.
-/

namespace RTCRM

/-- A page-permission record (`PagePermission` interface, lines 5–12). -/
structure PagePermission where
  id : String
  page_name : String
  route : String
  admin_access : Bool
  manager_access : Bool
  user_access : Bool
deriving DecidableEq, Repr

/-- An authenticated identity: an opaque handle with a stable unique id
(the only field the code reads is `user.id`). -/
structure Identity where
  id : String
deriving DecidableEq, Repr

/-- Route normalization, line 120:
`route === '/' ? '/dashboard' : route.replace(/\/$/, '')` —
`/` maps to `/dashboard`, otherwise one trailing slash is stripped.  The
strip is expressed on the character list of the route (drop the last
character when it is `/`), which is exactly what the regex `/\/$/` with an
empty replacement does. -/
def normalizeRoute (route : String) : String :=
  if route = "/" then "/dashboard"
  else if route.data.getLast? = some '/' then String.mk route.data.dropLast else route

/-- `hasPageAccess` (lines 118–140), as a pure function of the `permissions`
and `userRole` state it closes over.  `List.find?` mirrors
`permissions.find(p => p.route === normalizedRoute)`; the `match` on
`userRole` mirrors the `switch` whose `'user'` case and `default` case
share the `user_access` branch. -/
def hasPageAccess (permissions : List PagePermission) (userRole : String)
    (route : String) : Bool :=
  let normalizedRoute := normalizeRoute route
  match permissions.find? (fun p => p.route = normalizedRoute) with
  | none => true
  | some permission =>
    match userRole with
    | "admin" => permission.admin_access
    | "manager" => permission.manager_access
    | _ => permission.user_access

/-- The context value exposed by the provider (lines 14–22, 145–153).
The two function-valued members are carried as functions. -/
structure PermissionsContextType where
  userRole : String
  isAdmin : Bool
  isManager : Bool
  permissions : List PagePermission
  loading : Bool
  hasPageAccess : String → Bool

/-- `usePermissions` (lines 26–32): `useContext` yields the provider's
value or `none` when no provider is mounted above the caller; in the
latter case the hook throws. -/
def usePermissions (ctx : Option PermissionsContextType) :
    Except String PermissionsContextType :=
  match ctx with
  | none => Except.error "usePermissions must be used within PermissionsProvider"
  | some context => Except.ok context

/-- What a guard component renders.  `appFrame` stands for
`FixedSidebarLayout(PageAccessGuard(Suspense(children)))` — the only
render outcome from which the wrapped page content (state `ContentReady`)
can ever appear.  `authPage` is the login page subtree. -/
inductive GuardRender
  | loadingSpinner
  | navigate (dest : String) (replace : Bool)
  | appFrame
  | authPage
  | publicPage
deriving DecidableEq, Repr

/-- `ProtectedRoute` (app shell, lines 88–117): spinner while identity
resolution is in flight, replace-redirect to `/auth` when there is no
user, otherwise the sidebar frame containing the guarded, lazily loaded
page. -/
def ProtectedRoute (loading : Bool) (user : Option Identity) : GuardRender :=
  if loading then .loadingSpinner
  else
    match user with
    | none => .navigate "/auth" true
    | some _ => .appFrame

/-- `AuthRoute` (app shell, lines 120–139): spinner while loading,
replace-redirect to `/` for an authenticated user, else the login page. -/
def AuthRoute (loading : Bool) (user : Option Identity) : GuardRender :=
  if loading then .loadingSpinner
  else
    match user with
    | some _ => .navigate "/" true
    | none => .authPage

/-- The paths the route table wraps in `ProtectedRoute`
(app shell, lines 159–208; `*` is the wildcard not-found route). -/
def guardedPaths : List String :=
  ["/dashboard", "/accounts", "/contacts", "/leads", "/meetings",
   "/deals", "/notifications", "/tasks", "/settings", "*"]

/-- The route table (app shell, lines 144–209): the element rendered for a
path, as a function of the identity source's `{user, loading}`. -/
def routeElement (path : String) (loading : Bool) (user : Option Identity) :
    GuardRender :=
  if path = "/sticky-header-test" then .publicPage
  else if path = "/auth" then AuthRoute loading user
  else if path = "/" then .navigate "/dashboard" true
  else ProtectedRoute loading user

/-- The provider's state cells (lines 40–43): `userRole`, `permissions`,
`loading`, `hasFetched`. -/
structure Store where
  userRole : String
  permissions : List PagePermission
  loading : Bool
  hasFetched : Bool
deriving DecidableEq, Repr

/-- The fully reset state the code writes when the identity is null
(lines 46–51 and 100–104). -/
def resetStore : Store :=
  { userRole := "user", permissions := [], loading := false, hasFetched := false }

/-- Result of one service call: `.error` when the returned `error` field is
set, `.ok data` otherwise, with `data` nullable. -/
abbrev SvcResult (α : Type) : Type := Except Unit (Option α)

/-- How one awaited `Promise.all` resolves: `.throwing` when an exception
escapes the awaited pair (rejected promise), `.results` when both calls
settle into `{data, error}` shapes. -/
inductive FetchOutcome
  | throwing
  | results (roleResult : SvcResult String)
            (permissionsResult : SvcResult (List PagePermission))
deriving Repr

/-- Lines 69–74: the role adopted from the role-lookup result —
`'user'` on error, else `roleResult.data || 'user'` (JavaScript `||`:
a null/absent or empty-string value falls back to `'user'`). -/
def roleFromResult : SvcResult String → String
  | .error _ => "user"
  | .ok d =>
    match d with
    | none => "user"
    | some s => if s = "" then "user" else s

/-- Lines 77–82: the permission list adopted from the listing result —
`[]` on error, else `permissionsResult.data || []`. -/
def permsFromResult : SvcResult (List PagePermission) → List PagePermission
  | .error _ => []
  | .ok d => d.getD []

/-- Observable events of one invocation: state-setter calls, the dispatch
of the two service calls of lines 63–66, and (ghost) the entry into
`fetchPermissions` with the closure-captured `hasFetched` value. -/
inductive Ev
  | setUserRole (r : String)
  | setPermissions (ps : List PagePermission)
  | setLoading (b : Bool)
  | setHasFetched (b : Bool)
  | roleCall (uid : String)
  | permCall
  | fetchInvoked (uid : String) (capturedHasFetched : Bool)
deriving DecidableEq, Repr

/-- Effect of one event on the store (setter events write their cell;
call/ghost events leave the store unchanged). -/
def applyEv (s : Store) : Ev → Store
  | .setUserRole r => { s with userRole := r }
  | .setPermissions ps => { s with permissions := ps }
  | .setLoading b => { s with loading := b }
  | .setHasFetched b => { s with hasFetched := b }
  | .roleCall _ => s
  | .permCall => s
  | .fetchInvoked _ _ => s

def applyEvs (s : Store) (evs : List Ev) : Store := evs.foldl applyEv s

/-- Number of role-lookup dispatches in a trace. -/
def roleCalls (t : List Ev) : Nat :=
  t.countP fun e => match e with | .roleCall _ => true | _ => false

/-- Number of permission-listing dispatches in a trace. -/
def permCalls (t : List Ev) : Nat :=
  t.countP fun e => match e with | .permCall => true | _ => false

/-- One invocation of `fetchPermissions` (lines 45–92), as the trace of
events it performs.  `user` and `hasFetched` are the values captured by the
`useCallback` closure at the render that created it; `outcome` is how the
awaited `Promise.all` resolves.  Null user: the reset writes of lines
46–51.  Captured `hasFetched` true: early return, line 55–57.  Otherwise
`setLoading(true)`, both dispatches, then the two independent result
handlers, `setHasFetched(true)` (only reached when no exception escapes),
the `catch` writes, and the `finally` `setLoading(false)`. -/
def fetchPermissions (user : Option Identity) (hasFetched : Bool)
    (outcome : FetchOutcome) : List Ev :=
  match user with
  | none =>
    [.setUserRole "user", .setPermissions [], .setLoading false, .setHasFetched false]
  | some u =>
    .fetchInvoked u.id hasFetched ::
    if hasFetched then []
    else
      [.setLoading true, .roleCall u.id, .permCall] ++
      (match outcome with
       | .throwing => [.setUserRole "user", .setPermissions []]
       | .results roleResult permissionsResult =>
         [.setUserRole (roleFromResult roleResult),
          .setPermissions (permsFromResult permissionsResult),
          .setHasFetched true]) ++
      [.setLoading false]

/-- The provider as seen by React between commits: the committed store,
the current props from the identity source, the dependency tuples the two
effects recorded at the previous render, and the oracle of outcomes for
fetches still to be dispatched.

Effect 1 (lines 95–106) depends on `user`, `authLoading` and the
`fetchPermissions` callback, whose `useCallback` identity is determined by
`(user, hasFetched)` — together `(user, authLoading, hasFetched)`.
Effect 2 (lines 109–111) depends on `user?.id`. -/
structure Machine where
  store : Store
  user : Option Identity
  authLoading : Bool
  deps1 : Option (Option Identity × Bool × Bool)
  deps2 : Option (Option String)
  outcomes : List FetchOutcome
deriving Repr

/-- One render-and-commit pass.  The render snapshots the current props and
state; each effect runs iff its dependency tuple differs from the previous
render's (always on the first render), in declaration order: the fetch
effect (lines 95–106) first, then the reset effect (lines 109–111).
Setter events are applied to the store in program order.  A pass whose
dependency tuples are unchanged emits no events. -/
def commitPass (m : Machine) : List Ev × Machine :=
  let snap1 : Option Identity × Bool × Bool := (m.user, m.authLoading, m.store.hasFetched)
  let snap2 : Option String := m.user.map Identity.id
  let evs1 : List Ev × List FetchOutcome :=
    if m.deps1 = some snap1 then ([], m.outcomes)
    else if m.authLoading then ([], m.outcomes)
    else
      match m.user with
      | some _ =>
        if m.store.hasFetched then
          (fetchPermissions m.user m.store.hasFetched .throwing, m.outcomes)
        else
          (fetchPermissions m.user m.store.hasFetched (m.outcomes.headD .throwing),
           m.outcomes.tail)
      | none =>
        ([.setUserRole "user", .setPermissions [], .setLoading false,
          .setHasFetched false], m.outcomes)
  let evs2 : List Ev :=
    if m.deps2 = some snap2 then [] else [.setHasFetched false]
  (evs1.1 ++ evs2,
   { store := applyEvs (applyEvs m.store evs1.1) evs2,
     user := m.user, authLoading := m.authLoading,
     deps1 := some snap1, deps2 := some snap2, outcomes := evs1.2 })

/-- Run `n` consecutive render-and-commit passes, concatenating their
event traces.  Passes past the point where the dependency tuples have
stabilized emit nothing and change nothing. -/
def runPasses : Nat → Machine → List Ev × Machine
  | 0, m => ([], m)
  | n + 1, m =>
    let p := commitPass m
    let rest := runPasses n p.2
    (p.1 ++ rest.1, rest.2)

/-- The store of a provider that has completed a successful fetch cycle:
role and permission list adopted, not loading, `hasFetched` true. -/
def settledStore (role : String) (ps : List PagePermission) : Store :=
  { userRole := role, permissions := ps, loading := false, hasFetched := true }

/-- A provider settled on identity `u` (both effects have recorded the
deps of the last render: `hasFetched` true, `authLoading` false). -/
def settledMachine (u : Identity) (role : String) (ps : List PagePermission)
    (outs : List FetchOutcome) : Machine :=
  { store := settledStore role ps, user := some u, authLoading := false,
    deps1 := some (some u, false, true), deps2 := some (some u.id),
    outcomes := outs }

/-- The machine just after the identity source switches from `u1`
(on which the provider had settled) to `u2`: the store and recorded deps
are still those of `u1`'s session, the props carry `u2`. -/
def machineAfterIdentityChange (u1 u2 : Identity) (role : String)
    (ps : List PagePermission) (outs : List FetchOutcome) : Machine :=
  { settledMachine u1 role ps outs with user := some u2 }

/-- The full event trace the provider produces after the identity changes
from `u1` to `u2`, run to quiescence (four passes suffice). -/
def identityChangeTrace (u1 u2 : Identity) (role : String)
    (ps : List PagePermission) (o : FetchOutcome) : List Ev :=
  (runPasses 4 (machineAfterIdentityChange u1 u2 role ps [o])).1

/-- One invocation of `refreshPermissions` (lines 113–116):
`setHasFetched(false)` followed by a call of the render-captured
`fetchPermissions` closure — whose captured `hasFetched` is the value of
the render that created the closure, unaffected by the preceding setter
call.  The returned promise resolves at the end of this trace. -/
def refreshPermissions (user : Option Identity) (capturedHasFetched : Bool)
    (outcome : FetchOutcome) : List Ev :=
  Ev.setHasFetched false :: fetchPermissions user capturedHasFetched outcome

/-- The full event trace of calling `refreshPermissions` on a provider
settled on `u` (so the captured `hasFetched` is `true`): the refresh call
itself, then the effect cascade its state update triggers, run to
quiescence (three passes suffice). -/
def refreshScenarioTrace (u : Identity) (role : String)
    (ps : List PagePermission) (o : FetchOutcome) : List Ev :=
  let call := refreshPermissions (some u) true o
  let m := settledMachine u role ps [o]
  let m1 := { m with store := applyEvs m.store call }
  call ++ (runPasses 3 m1).1

/-- A concrete permission record used to instantiate witnesses: the
`/settings` page, admin-only. -/
def permSettings : PagePermission :=
  { id := "p1", page_name := "Settings", route := "/settings",
    admin_access := true, manager_access := false, user_access := false }

/-- A concrete fetch outcome used to instantiate counterexamples: both
calls succeed, returning role `manager` and an empty permission table. -/
def sampleOutcome : FetchOutcome := .results (.ok (some "manager")) (.ok (some []))

/-- Claim C1: for every role and permission list, `hasPageAccess` returns
`true` when no record's `route` equals the normalized route; when the
first matching record is `p`, it returns `p.admin_access` for role
`admin`, `p.manager_access` for `manager`, and `p.user_access` for `user`
and for every other role value. -/
theorem hasPageAccess_role_dispatch (perms : List PagePermission)
    (role : String) (route : String) :
    ((∀ p ∈ perms, p.route ≠ normalizeRoute route) →
      hasPageAccess perms role route = true)
    ∧ (∀ p, perms.find? (fun q => q.route = normalizeRoute route) = some p →
        hasPageAccess perms role route =
          if role = "admin" then p.admin_access
          else if role = "manager" then p.manager_access
          else p.user_access) := by
  constructor
  · intro hnone
    have hfind : perms.find? (fun q => q.route = normalizeRoute route) = none := by
      rw [List.find?_eq_none]
      intro q hq
      simpa using hnone q hq
    simp [hasPageAccess, hfind]
  · intro p hfind
    simp only [hasPageAccess, hfind]
    by_cases hA : role = "admin"
    · subst hA; simp
    · by_cases hM : role = "manager"
      · subst hM; simp
      · rw [if_neg hA, if_neg hM]
        split <;> simp_all

/-- Closed witness for the hypotheses of `hasPageAccess_role_dispatch`:
with the admin-only `/settings` record present, a `manager` is denied. -/
theorem hasPageAccess_role_dispatch_witness :
    [permSettings].find? (fun q => q.route = normalizeRoute "/settings") = some permSettings
    ∧ hasPageAccess [permSettings] "manager" "/settings" =
        (if "manager" = "admin" then permSettings.admin_access
         else if "manager" = "manager" then permSettings.manager_access
         else permSettings.user_access) :=
  ⟨by decide,
   (hasPageAccess_role_dispatch [permSettings] "manager" "/settings").2
     permSettings (by decide)⟩

/-- Claim C9: `hasPageAccess` agrees on `/`, `/dashboard` and
`/dashboard/` for every role and permission list — all three normalize to
`/dashboard` before lookup. -/
theorem hasPageAccess_normalization (perms : List PagePermission) (role : String) :
    hasPageAccess perms role "/" = hasPageAccess perms role "/dashboard"
    ∧ hasPageAccess perms role "/dashboard/" = hasPageAccess perms role "/dashboard" := by
  have h1 : normalizeRoute "/" = "/dashboard" := by decide
  have h2 : normalizeRoute "/dashboard/" = "/dashboard" := by decide
  have h3 : normalizeRoute "/dashboard" = "/dashboard" := by decide
  constructor <;> simp [hasPageAccess, h1, h2, h3]

/-- Claim C10: `usePermissions` throws
`usePermissions must be used within PermissionsProvider` when no provider
is mounted above the caller (context undefined), and returns the context
value without throwing inside a provider. -/
theorem usePermissions_requires_provider (c : PermissionsContextType) :
    usePermissions none =
      Except.error "usePermissions must be used within PermissionsProvider"
    ∧ usePermissions (some c) = Except.ok c :=
  ⟨rfl, rfl⟩

/-- Claim C2: on every guarded route, once identity resolution has
completed (`loading = false`) with a null user, `ProtectedRoute` renders a
replace-redirect to `/auth` and never the application frame — so the
navigation ends in `LoginRedirect`, never `ContentReady` (which is only
reachable from the frame's suspense boundary). -/
theorem protectedRoute_login_redirect (path : String) (h : path ∈ guardedPaths) :
    routeElement path false none = GuardRender.navigate "/auth" true
    ∧ routeElement path false none ≠ GuardRender.appFrame := by
  simp only [guardedPaths, List.mem_cons, List.not_mem_nil, or_false] at h
  rcases h with rfl | rfl | rfl | rfl | rfl | rfl | rfl | rfl | rfl | rfl <;> decide

/-- Closed witness for `protectedRoute_login_redirect` at `/settings`. -/
theorem protectedRoute_login_redirect_witness :
    "/settings" ∈ guardedPaths
    ∧ (routeElement "/settings" false none = GuardRender.navigate "/auth" true
       ∧ routeElement "/settings" false none ≠ GuardRender.appFrame) :=
  ⟨by decide, protectedRoute_login_redirect "/settings" (by decide)⟩

/-- Claim C3: with a non-null identity and `hasFetched` already true, a
(non-refresh) `fetchPermissions` invocation only records its entry: it
dispatches zero role-lookup and zero permission-listing calls and leaves
role, permissions, loading and fetched unchanged. -/
theorem fetchPermissions_short_circuit (u : Identity) (s : Store) (o : FetchOutcome) :
    fetchPermissions (some u) true o = [Ev.fetchInvoked u.id true]
    ∧ applyEvs s (fetchPermissions (some u) true o) = s
    ∧ roleCalls (fetchPermissions (some u) true o) = 0
    ∧ permCalls (fetchPermissions (some u) true o) = 0 :=
  ⟨rfl, rfl, rfl, rfl⟩

/-- The provider's state at mount (lines 40–43): default role, no
permissions, `loading` initially true, nothing fetched yet. -/
def initialStore : Store :=
  { userRole := "user", permissions := [], loading := true, hasFetched := false }

/-- Claim C4 counterexample: on the first fetch attempt after mount, when
an exception escapes the awaited pair, `hasFetched` is not true afterwards
— the unconditional-looking `setHasFetched(true)` of line 84 sits inside
the `try` block after the `await`, so the escaping exception skips it, and
neither the `catch` nor the `finally` block sets it. -/
theorem fetch_throwing_leaves_hasFetched_false :
    (applyEvs initialStore
      (fetchPermissions (some ⟨"u1"⟩) false FetchOutcome.throwing)).hasFetched = false := by
  decide

/-- Claim C4 as amended: after a fetch attempt for a non-null identity in
which both calls settle, `fetched` is true; when an exception escapes the
awaited pair, `fetched` keeps its pre-attempt value (false on a first
attempt) instead of becoming true, while role and permissions are reset to
their defaults; `loading` is false afterwards in either case (the
`finally` block). -/
theorem fetch_attempt_final_state (s : Store) (u : Identity)
    (r : SvcResult String) (p : SvcResult (List PagePermission)) :
    (applyEvs s (fetchPermissions (some u) false FetchOutcome.throwing)).userRole = "user"
    ∧ (applyEvs s (fetchPermissions (some u) false FetchOutcome.throwing)).permissions = []
    ∧ (applyEvs s (fetchPermissions (some u) false FetchOutcome.throwing)).loading = false
    ∧ (applyEvs s (fetchPermissions (some u) false FetchOutcome.throwing)).hasFetched
        = s.hasFetched
    ∧ (applyEvs s (fetchPermissions (some u) false (FetchOutcome.results r p))).hasFetched
        = true
    ∧ (applyEvs s (fetchPermissions (some u) false (FetchOutcome.results r p))).loading
        = false :=
  ⟨rfl, rfl, rfl, rfl, rfl, rfl⟩

/-- Claim C6: within one settled fetch cycle the two results are handled
independently — the resulting role is a function of the role result alone
(`user` on failure or on an empty/absent value) and the resulting
permission list a function of the listing result alone (`[]` on failure,
the returned list otherwise), whatever the other result and the prior
state are. -/
theorem fetch_results_handled_independently (s : Store) (u : Identity)
    (r : SvcResult String) (p : SvcResult (List PagePermission)) :
    (applyEvs s (fetchPermissions (some u) false (FetchOutcome.results r p))).userRole
        = roleFromResult r
    ∧ (applyEvs s (fetchPermissions (some u) false (FetchOutcome.results r p))).permissions
        = permsFromResult p
    ∧ roleFromResult (Except.error ()) = "user"
    ∧ roleFromResult (Except.ok none) = "user"
    ∧ (∀ v, roleFromResult (Except.ok (some v)) = if v = "" then "user" else v)
    ∧ permsFromResult (Except.error ()) = []
    ∧ (∀ l, permsFromResult (Except.ok (some l)) = l) :=
  ⟨rfl, rfl, rfl, rfl, fun _ => rfl, rfl, fun _ => rfl⟩

/-- Claim C8: when the identity is null, both the `fetchPermissions` null
branch (lines 46–51) and the provider's effect cascade after sign-out
reset the state to role `user`, no permissions, not loading, not fetched,
and dispatch no service call. -/
theorem null_identity_resets (s : Store) (h : Bool) (o : FetchOutcome)
    (u : Identity) (role : String) (ps : List PagePermission) :
    applyEvs s (fetchPermissions none h o) = resetStore
    ∧ roleCalls (fetchPermissions none h o) = 0
    ∧ permCalls (fetchPermissions none h o) = 0
    ∧ (runPasses 3 { settledMachine u role ps [] with user := none }).2.store = resetStore
    ∧ roleCalls (runPasses 3 { settledMachine u role ps [] with user := none }).1 = 0
    ∧ permCalls (runPasses 3 { settledMachine u role ps [] with user := none }).1 = 0 :=
  ⟨rfl, rfl, rfl, rfl, rfl, rfl⟩

/-- Claim C5 counterexample: after the identity changes from `u1` (settled,
`hasFetched` true) to `u2`, the very first event is the fetch effect
entering `fetchPermissions` for the new id with the stale captured
`hasFetched = true` — the fetch effect (declared first, lines 95–106) runs
before the reset effect (declared second, lines 109–111), so this first
fetch invocation for the new identity is short-circuited by the stale
flag, contradicting the claimed ordering. -/
theorem identity_change_fetch_observes_stale_flag :
    (identityChangeTrace ⟨"u1"⟩ ⟨"u2"⟩ "admin" [] sampleOutcome).head?
      = some (Ev.fetchInvoked "u2" true)
    ∧ Ev.fetchInvoked "u2" true ∈ identityChangeTrace ⟨"u1"⟩ ⟨"u2"⟩ "admin" [] sampleOutcome := by
  decide

/-- Claim C5 as amended: on an identity change to a new non-null id, the
fetch effect runs first and its invocation for the new id is
short-circuited by the stale `fetched = true`; the reset effect then
clears `fetched`, which re-runs the fetch effect, and the actual fetch for
the new identity proceeds with `fetched = false` — so `fetched` is still
reset before `loading` is set for the new identity, and exactly one
role-lookup and one permission-listing call are made for it, at the cost
of one extra render cycle rather than by the claimed
reset-before-fetch-effect ordering. -/
theorem identity_change_trace_events (u1 u2 : Identity) (h : u1.id ≠ u2.id)
    (role : String) (ps : List PagePermission)
    (r : SvcResult String) (p : SvcResult (List PagePermission)) :
    identityChangeTrace u1 u2 role ps (FetchOutcome.results r p) =
      [Ev.fetchInvoked u2.id true, Ev.setHasFetched false,
       Ev.fetchInvoked u2.id false, Ev.setLoading true,
       Ev.roleCall u2.id, Ev.permCall,
       Ev.setUserRole (roleFromResult r), Ev.setPermissions (permsFromResult p),
       Ev.setHasFetched true, Ev.setLoading false,
       Ev.fetchInvoked u2.id true] := by
  have hne : u1 ≠ u2 := fun e => h (congrArg Identity.id e)
  simp [identityChangeTrace, runPasses, machineAfterIdentityChange, settledMachine,
        settledStore, commitPass, fetchPermissions, applyEvs, applyEv, hne, h]

/-- Closed witness for `identity_change_trace_events` at distinct concrete
identities. -/
theorem identity_change_trace_events_witness :
    (⟨"u1"⟩ : Identity).id ≠ (⟨"u2"⟩ : Identity).id
    ∧ identityChangeTrace ⟨"u1"⟩ ⟨"u2"⟩ "admin" []
        (FetchOutcome.results (Except.ok (some "manager")) (Except.ok none)) =
      [Ev.fetchInvoked "u2" true, Ev.setHasFetched false, Ev.fetchInvoked "u2" false,
       Ev.setLoading true, Ev.roleCall "u2", Ev.permCall,
       Ev.setUserRole (roleFromResult (Except.ok (some "manager"))),
       Ev.setPermissions (permsFromResult (Except.ok none)),
       Ev.setHasFetched true, Ev.setLoading false, Ev.fetchInvoked "u2" true] :=
  ⟨by decide,
   identity_change_trace_events ⟨"u1"⟩ ⟨"u2"⟩ (by decide) "admin" [] _ _⟩

/-- Claim C7 counterexample: invoking `refreshPermissions` on a provider
whose captured `hasFetched` is true performs only `setHasFetched(false)`
and a short-circuited `fetchPermissions` entry: zero role-lookup and zero
permission-listing calls happen before its promise resolves — the
`setHasFetched(false)` on line 114 does not change the `hasFetched` value
already captured by the `fetchPermissions` closure it then awaits. -/
theorem refresh_resolves_without_fetch :
    refreshPermissions (some ⟨"u1"⟩) true sampleOutcome
      = [Ev.setHasFetched false, Ev.fetchInvoked "u1" true]
    ∧ roleCalls (refreshPermissions (some ⟨"u1"⟩) true sampleOutcome) = 0
    ∧ permCalls (refreshPermissions (some ⟨"u1"⟩) true sampleOutcome) = 0 := by
  decide

/-- Claim C7 as amended: `refreshPermissions` clears `fetched` but its own
`fetchPermissions` call is short-circuited by the stale captured flag, so
its promise resolves before any new fetch; the cleared flag then makes the
fetch effect re-run, which issues exactly one new role-lookup and one
permission-listing call — the re-fetch happens, but after the refresh
promise has already resolved, not before. -/
theorem refresh_then_effect_refetches (u : Identity) (role : String)
    (ps : List PagePermission)
    (r : SvcResult String) (p : SvcResult (List PagePermission)) :
    refreshPermissions (some u) true (FetchOutcome.results r p)
      = [Ev.setHasFetched false, Ev.fetchInvoked u.id true]
    ∧ refreshScenarioTrace u role ps (FetchOutcome.results r p) =
      [Ev.setHasFetched false, Ev.fetchInvoked u.id true,
       Ev.fetchInvoked u.id false, Ev.setLoading true,
       Ev.roleCall u.id, Ev.permCall,
       Ev.setUserRole (roleFromResult r), Ev.setPermissions (permsFromResult p),
       Ev.setHasFetched true, Ev.setLoading false,
       Ev.fetchInvoked u.id true]
    ∧ roleCalls (refreshScenarioTrace u role ps (FetchOutcome.results r p)) = 1
    ∧ permCalls (refreshScenarioTrace u role ps (FetchOutcome.results r p)) = 1 := by
  refine ⟨rfl, ?_, ?_, ?_⟩ <;>
    simp [refreshScenarioTrace, refreshPermissions, settledMachine, settledStore,
          runPasses, commitPass, fetchPermissions, applyEvs, applyEv,
          roleCalls, permCalls]

end RTCRM
